import Mathlib

/-!
Shallow embedding of `app.py` (class `WeatherDataProcessor` and the `__main__`
block) of the temporal_poc repository, together with proofs of the spec claims.

Modelling conventions:
* Timestamps (epoch seconds, as handed around by the weather API) are `Int`.
* Numeric cell values (numpy floats in the source) are modelled as `Int`;
  no claim performs arithmetic on them, they are only moved around and
  serialized, and their decimal serialization is newline-free exactly like
  the float rendering of pandas.
* The HTTP / network layer is an explicit parameter: `FetchOutcome` is what
  the `openmeteo.weather_api` call together with response parsing produced
  (either a parsed daily block or a raised exception), and `SendOutcome` is
  what the sendgrid transport produced.
* Python functions that catch every exception and return normally are
  modelled with total return types (result plus the list of log entries they
  write); an uncaught exception would instead surface as an `Except`/`Option`
  failure, so a total type is the statement that no exception escapes.
* Quote characters inside some Python log/exception message texts are
  elided; no claim depends on them.
-/

namespace App

/-- One line written through the `logging` module: level plus message. -/
inductive LogEntry
  | info (msg : String)
  | error (msg : String)
deriving DecidableEq

/-- The daily block of one parsed Open-Meteo response, as read by
`fetch_weather_data`: `daily.Time()`, `daily.TimeEnd()`, `daily.Interval()`
and the six `ValuesAsNumpy()` arrays in request order. -/
structure ApiResponse where
  time : Int
  timeEnd : Int
  interval : Int
  weather_code : List Int
  temperature_2m_max : List Int
  temperature_2m_min : List Int
  sunrise : List Int
  precipitation_sum : List Int
  rain_sum : List Int

/-- Outcome of the `openmeteo.weather_api` request plus response-field access
inside the `try` block of `fetch_weather_data`: either a parsed daily block,
or an exception with message `msg`. -/
inductive FetchOutcome
  | ok (resp : ApiResponse)
  | exn (msg : String)

/-- The points `s, s + step, s + 2*step, ...` that are strictly below `e`:
the semantics of `pd.date_range(start, end, freq, inclusive = "left")` for a
positive frequency (pandas generates points up to `end` and then drops the
right endpoint).  `fuel` bounds the number of generation steps; the caller
passes `(e - s).toNat`, which always suffices because the step is at least
one second, so the structural recursion computes the same list the
unbounded generation would. -/
def date_range_go (s e step : Int) : Nat → List Int
  | 0 => []
  | fuel + 1 => if s < e then s :: date_range_go (s + step) e step fuel else []

/-- Model of `pd.date_range(start = s, end = e, freq = step, inclusive = "left")`:
`none` models the `ValueError` pandas raises for a non-positive frequency. -/
def date_range (s e step : Int) : Option (List Int) :=
  if 0 < step then some (date_range_go s e step (e - s).toNat) else none

/-- The `weather_df` DataFrame built by `fetch_weather_data`: seven named
columns.  The length invariants are the pandas `DataFrame` invariant that all
columns of a frame have the same length (its constructor raises otherwise). -/
structure WeatherDF where
  date : List Int
  weather_code : List Int
  temperature_2m_max : List Int
  temperature_2m_min : List Int
  sunrise : List Int
  precipitation_sum : List Int
  rain_sum : List Int
  hwc : weather_code.length = date.length
  htmax : temperature_2m_max.length = date.length
  htmin : temperature_2m_min.length = date.length
  hsun : sunrise.length = date.length
  hpre : precipitation_sum.length = date.length
  hrain : rain_sum.length = date.length

/-- Message of the `ValueError` raised by `pd.DataFrame` when the dict
columns have different lengths (quotes elided). -/
def length_mismatch_msg : String := "All arrays must be of the same length"

/-- Message of the error pandas raises for a non-positive date_range
frequency (quotes elided). -/
def invalid_freq_msg : String := "frequency must be positive"

/-- Model of `WeatherDataProcessor.fetch_weather_data`.  The `latitude` and
`longitude` arguments are forwarded into the request parameters (together
with the six daily variables, `timezone = "auto"` and `forecast_days = 14`);
`outcome` is what the request and response parsing produced.  Returns the
Python return value (`None` on any caught exception) together with the log
entries written. -/
def fetch_weather_data (latitude longitude : Rat) (outcome : FetchOutcome) :
    Option WeatherDF × List LogEntry :=
  match outcome with
  | .exn e =>
      (none, [LogEntry.error ("Error occurred while fetching weather data: " ++ e)])
  | .ok r =>
      match date_range r.time r.timeEnd r.interval with
      | none =>
          (none,
           [LogEntry.error ("Error occurred while fetching weather data: " ++ invalid_freq_msg)])
      | some dates =>
          if h : r.weather_code.length = dates.length ∧
              r.temperature_2m_max.length = dates.length ∧
              r.temperature_2m_min.length = dates.length ∧
              r.sunrise.length = dates.length ∧
              r.precipitation_sum.length = dates.length ∧
              r.rain_sum.length = dates.length then
            (some { date := dates
                    weather_code := r.weather_code
                    temperature_2m_max := r.temperature_2m_max
                    temperature_2m_min := r.temperature_2m_min
                    sunrise := r.sunrise
                    precipitation_sum := r.precipitation_sum
                    rain_sum := r.rain_sum
                    hwc := h.1
                    htmax := h.2.1
                    htmin := h.2.2.1
                    hsun := h.2.2.2.1
                    hpre := h.2.2.2.2.1
                    hrain := h.2.2.2.2.2 },
             [])
          else
            (none,
             [LogEntry.error ("Error occurred while fetching weather data: " ++ length_mismatch_msg)])

/-! ## Forecast store (`store_into_database`) -/

/-- The relational table written by `DataFrame.to_sql` with the default
`index = True`: the seven DataFrame columns verbatim plus the generated
integer row-index column that pandas prepends. -/
structure StoredTable where
  index : List Nat
  date : List Int
  weather_code : List Int
  temperature_2m_max : List Int
  temperature_2m_min : List Int
  sunrise : List Int
  precipitation_sum : List Int
  rain_sum : List Int

/-- Model of `DataFrame.to_sql` output for `weather_df`: the columns verbatim
and the generated `RangeIndex` column `0, 1, ..., n-1`. -/
def toStored (df : WeatherDF) : StoredTable :=
  { index := List.range df.date.length
    date := df.date
    weather_code := df.weather_code
    temperature_2m_max := df.temperature_2m_max
    temperature_2m_min := df.temperature_2m_min
    sunrise := df.sunrise
    precipitation_sum := df.precipitation_sum
    rain_sum := df.rain_sum }

/-- The column names of `StoredTable`, in persisted order: the generated
row-index column first, then the ForecastTable columns. -/
def stored_column_names : List String :=
  ["index", "date", "weather_code", "temperature_2m_max", "temperature_2m_min",
   "sunrise", "precipitation_sum", "rain_sum"]

/-- The sqlite database `weather.db`: a map from table name to contents. -/
abbrev Database := String → Option StoredTable

/-- Message of the `AttributeError` raised by `None.to_sql` when the main
block hands the `None` of a failed fetch to the store step (quotes elided). -/
def none_to_sql_msg : String := "NoneType object has no attribute to_sql"

/-- Model of `WeatherDataProcessor.store_into_database`.  `dataframe` is the
Python argument, which the main block may pass as `None`; `table_name`
defaults to `"weather_forecast"` at the call site.  `to_sql` with
`if_exists = "replace"` drops any existing table of that name and writes the
frame; any exception is caught and logged.  Returns the updated database and
the log entries written. -/
def store_into_database (db : Database) (dataframe : Option WeatherDF)
    (table_name : String) : Database × List LogEntry :=
  match dataframe with
  | none =>
      (db, [LogEntry.error ("Error occurred while storing data into database: " ++ none_to_sql_msg)])
  | some df =>
      (fun n => if n = table_name then some (toStored df) else db n,
       [LogEntry.info ("Data successfully stored into " ++ table_name ++ " table.")])

/-! ## CSV serialization (`weather_dataframe.to_csv(index=False)`)

Byte-level model of the comma-separated text pandas produces: the header
line is the column names joined by commas, then one line per row, each line
terminated by a newline byte (10).  Cell values are rendered as their
decimal digits; like the float/timestamp renderings of pandas, this
rendering never contains a newline or comma byte. -/

/-- The bytes (code points) of an ASCII string. -/
def strBytes (s : String) : List Nat := s.data.map Char.toNat

/-- Decimal digit bytes of a natural number, most significant first. -/
def natDigits (n : Nat) : List Nat :=
  if n < 10 then [48 + n]
  else natDigits (n / 10) ++ [48 + n % 10]
decreasing_by
  exact Nat.div_lt_self (by omega) (by omega)

/-- Decimal rendering of an integer cell value as bytes (45 is the minus
sign). -/
def intBytes : Int → List Nat
  | Int.ofNat n => natDigits n
  | Int.negSucc m => 45 :: natDigits (m + 1)

/-- The seven column names of the ForecastTable, in order: these are the dict
keys `fetch_weather_data` builds the DataFrame from, and hence the CSV
header fields written by `to_csv`. -/
def forecast_column_names : List String :=
  ["date", "weather_code", "temperature_2m_max", "temperature_2m_min",
   "sunrise", "precipitation_sum", "rain_sum"]

/-- Join byte chunks with the comma byte (44) between them. -/
def joinCommaBytes : List (List Nat) → List Nat
  | [] => []
  | [x] => x
  | x :: y :: ys => x ++ 44 :: joinCommaBytes (y :: ys)

/-- The CSV header line bytes: column names joined by commas (without the
terminating newline). -/
def headerBytes : List Nat := joinCommaBytes (forecast_column_names.map strBytes)

/-- One CSV data line: the seven cell renderings joined by commas, plus the
terminating newline byte. -/
def csvRowBytes : Int × Int × Int × Int × Int × Int × Int → List Nat
  | (a, b, c, d, e, f, g) =>
      joinCommaBytes [intBytes a, intBytes b, intBytes c, intBytes d,
                      intBytes e, intBytes f, intBytes g] ++ [10]

/-- The rows of the frame, by position: the zip of its seven columns. -/
def WeatherDF.rows (df : WeatherDF) : List (Int × Int × Int × Int × Int × Int × Int) :=
  df.date.zip (df.weather_code.zip (df.temperature_2m_max.zip (df.temperature_2m_min.zip
    (df.sunrise.zip (df.precipitation_sum.zip df.rain_sum)))))

/-- Model of `weather_dataframe.to_csv(index = False)` as bytes: header line,
newline, then one newline-terminated line per row.  `index = False` means the
row-index column is not written. -/
def to_csv_bytes (df : WeatherDF) : List Nat :=
  headerBytes ++ 10 :: (df.rows.map csvRowBytes).flatten

/-! ## Base64 (`base64.b64encode`) -/

/-- The base64 alphabet, in six-bit-value order. -/
def base64Chars : List Char :=
  "ABCDEFGHIJKLMNOPQRSTUVWXYZabcdefghijklmnopqrstuvwxyz0123456789+/".data

/-- The alphabet character of a six-bit value. -/
def sixBitChar (n : Nat) : Char := base64Chars.getD n (Char.ofNat 65)

/-- Position of a character in the base64 alphabet, if any. -/
def charSixBit (c : Char) : Option Nat :=
  go base64Chars 0
where
  go : List Char → Nat → Option Nat
    | [], _ => none
    | a :: as, i => if a = c then some i else go as (i + 1)

/-- Standard base64 encoding of a byte list, as characters: three bytes per
four characters, with padding characters for a trailing one- or two-byte
group. -/
def b64encodeChars : List Nat → List Char
  | [] => []
  | [a] =>
      [sixBitChar (a / 4), sixBitChar (a % 4 * 16), Char.ofNat 61, Char.ofNat 61]
  | [a, b] =>
      [sixBitChar (a / 4), sixBitChar (a % 4 * 16 + b / 16),
       sixBitChar (b % 16 * 4), Char.ofNat 61]
  | a :: b :: c :: rest =>
      sixBitChar (a / 4) :: sixBitChar (a % 4 * 16 + b / 16) ::
      sixBitChar (b % 16 * 4 + c / 64) :: sixBitChar (c % 64) ::
      b64encodeChars rest

/-- Model of `base64.b64encode(...).decode()`. -/
def b64encode (bs : List Nat) : String := String.mk (b64encodeChars bs)

/-- Standard base64 decoding: inverse of `b64encodeChars` on valid input,
`none` on malformed input. -/
def b64decodeChars : List Char → Option (List Nat)
  | [] => some []
  | w :: x :: y :: z :: rest =>
      match charSixBit w, charSixBit x with
      | some hw, some hx =>
          if y = Char.ofNat 61 ∧ z = Char.ofNat 61 ∧ rest = [] then
            some [hw * 4 + hx / 16]
          else
            match charSixBit y with
            | some hy =>
                if z = Char.ofNat 61 ∧ rest = [] then
                  some [hw * 4 + hx / 16, hx % 16 * 16 + hy / 4]
                else
                  match charSixBit z, b64decodeChars rest with
                  | some hz, some tail =>
                      some ((hw * 4 + hx / 16) :: (hx % 16 * 16 + hy / 4) ::
                            (hy % 4 * 64 + hz) :: tail)
                  | _, _ => none
            | none => none
      | _, _ => none
  | _ => none

/-- Base64 decoding of a string. -/
def b64decode (s : String) : Option (List Nat) := b64decodeChars s.data

/-! ## Notifier (`send_email`) -/

/-- The attachment built by `send_email`: sendgrid `Attachment` fields. -/
structure Attachment where
  file_content : String
  file_name : String
  file_type : String
  disposition : String
  content_id : String

/-- The sendgrid `Mail` object built by `send_email`. -/
structure Mail where
  from_email : Option String
  to_emails : List String
  subject : String
  html_content : String
  attachment : Option Attachment

/-- Outcome of the sendgrid transport for one `sg.send(message)` call: an
HTTP response with a status code, or a raised exception with message `msg`. -/
inductive SendOutcome
  | response (status_code : Nat)
  | exn (msg : String)

/-- Modelled from the spec: the sendgrid client library (external to this
repository).  The spec states the delivery API authenticates with the
SENDGRID_API_KEY credential and uses the EMAIL_USER sender address, and that
a missing credential or sender yields a delivery failure rather than an
acceptance; with both present the outcome is whatever the network produced
(`net`). -/
def sendgrid_send (api_key : Option String) (from_email : Option String)
    (net : SendOutcome) : SendOutcome :=
  match api_key, from_email with
  | some _, some _ => net
  | _, _ => SendOutcome.exn "missing credential or sender address"

/-- The fixed HTML body template of `send_email`, with `content` substituted
(literal braces of the CSS written as their escapes). -/
def html_template (content : String) : String :=
  "\n<html>\n<head>\n<style>\nbody \x7b\nfont-family: Arial, sans-serif;\nfont-size: 14px;\n\x7d\n.greeting \x7b\nfont-size: 18px;\nfont-weight: bold;\n\x7d\n.content \x7b\nmargin-top: 10px;\n\x7d\n.signature \x7b\nfont-weight: bold;\n\x7d\n</style>\n</head>\n<body>\n<p class=\"greeting\">Hi Team,</p>\n<div class=\"content\">\n<p>"
    ++ content ++
    "</p>\n</div>\n<p>Thanks,</p>\n<p class=\"signature\">Pratik Kodilkar</p>\n</body>\n</html>\n"

/-- Message of the `AttributeError` raised by `None.to_csv` when the main
block hands the `None` of a failed fetch to the notify step (quotes elided). -/
def none_to_csv_msg : String := "NoneType object has no attribute to_csv"

/-- Model of `WeatherDataProcessor.send_email`.  `env` is `os.environ.get`;
`net` is the sendgrid transport outcome; `weather_dataframe` is the Python
argument, `None` when the fetch failed.  Returns the `Mail` object that was
built and handed to `sg.send` (`none` when an exception interrupted the body
before the attachment was built) together with the log entries written.
Every exception in the body is caught and logged, so the function always
returns; nothing propagates to the caller. -/
def send_email (env : String → Option String) (net : SendOutcome) (content : String)
    (weather_dataframe : Option WeatherDF) (receiver_email : String) :
    Option Mail × List LogEntry :=
  match weather_dataframe with
  | none =>
      (none, [LogEntry.error ("Error occurred while sending email: " ++ none_to_csv_msg)])
  | some df =>
      let message : Mail :=
        { from_email := env "EMAIL_USER"
          to_emails := [receiver_email]
          subject := "Weather Report"
          html_content := html_template content
          attachment := none }
      let base64_csv : String := b64encode (to_csv_bytes df)
      let message : Mail :=
        { message with
            attachment := some
              { file_content := base64_csv
                file_name := "weather_report.csv"
                file_type := "text/csv"
                disposition := "attachment"
                content_id := "dataframe" } }
      match sendgrid_send (env "SENDGRID_API_KEY") message.from_email net with
      | SendOutcome.response code =>
          if code = 202 then
            (some message, [LogEntry.info "Email sent successfully."])
          else
            (some message,
             [LogEntry.error ("Failed to send email. Status code: " ++ toString code)])
      | SendOutcome.exn e =>
          (some message, [LogEntry.error ("Error occurred while sending email: " ++ e)])

/-! ## Orchestrator (the `__main__` block) -/

/-- Model of the `__main__` block: fetch for the hardcoded coordinates, store
under the default table name, then send.  `env`, `fetch_out`, `net` and
`receiver_email` are the process environment, the two network outcomes and
the interactive input; `db` is the sqlite database before the run.  Returns
the database after the run, the concatenated log, and the process exit
status (the script ends normally whatever the steps logged, so 0). -/
def main_run (env : String → Option String) (fetch_out : FetchOutcome)
    (net : SendOutcome) (receiver_email : String) (db : Database) :
    Database × List LogEntry × Nat :=
  let latitude : Rat := 407143 / 10000
  let longitude : Rat := -74006 / 1000
  let fetched := fetch_weather_data latitude longitude fetch_out
  let weather_dataframe := fetched.1
  let content := "Following weather_report.csv file contains weather forecast of 2 weeks"
  let stored := store_into_database db weather_dataframe "weather_forecast"
  let sent := send_email env net content weather_dataframe receiver_email
  (stored.1, fetched.2 ++ stored.2 ++ sent.2, 0)

/-! ## Spec-modelled external contracts and concrete test data -/

/-- Modelled from the spec: a response of the weather API that honors the
request `fetch_weather_data` sends (the API itself is external to this
repository).  The request asks for `forecast_days = 14` of daily data, so a
conforming response reports a one-day (86400 s) interval, an end time 14
days after the start, and one value per day for each of the six requested
variables. -/
def respConforms (r : ApiResponse) : Prop :=
  r.interval = 86400 ∧ r.timeEnd = r.time + 14 * 86400 ∧
  r.weather_code.length = 14 ∧ r.temperature_2m_max.length = 14 ∧
  r.temperature_2m_min.length = 14 ∧ r.sunrise.length = 14 ∧
  r.precipitation_sum.length = 14 ∧ r.rain_sum.length = 14

/-- A concrete conforming response used to witness the fetch theorems. -/
def respW : ApiResponse :=
  { time := 0
    timeEnd := 1209600
    interval := 86400
    weather_code := List.replicate 14 0
    temperature_2m_max := List.replicate 14 0
    temperature_2m_min := List.replicate 14 0
    sunrise := List.replicate 14 0
    precipitation_sum := List.replicate 14 0
    rain_sum := List.replicate 14 0 }

/-- The frame `fetch_weather_data` builds from `respW`. -/
def dfW : WeatherDF :=
  { date := [0, 86400, 172800, 259200, 345600, 432000, 518400, 604800,
             691200, 777600, 864000, 950400, 1036800, 1123200]
    weather_code := List.replicate 14 0
    temperature_2m_max := List.replicate 14 0
    temperature_2m_min := List.replicate 14 0
    sunrise := List.replicate 14 0
    precipitation_sum := List.replicate 14 0
    rain_sum := List.replicate 14 0
    hwc := by decide
    htmax := by decide
    htmin := by decide
    hsun := by decide
    hpre := by decide
    hrain := by decide }

/-- The empty frame, used to witness the notifier theorems. -/
def dfEmpty : WeatherDF :=
  { date := []
    weather_code := []
    temperature_2m_max := []
    temperature_2m_min := []
    sunrise := []
    precipitation_sum := []
    rain_sum := []
    hwc := rfl
    htmax := rfl
    htmin := rfl
    hsun := rfl
    hpre := rfl
    hrain := rfl }

/-- An environment where every variable is set. -/
def envW : String → Option String := fun _ => some "value"

/-- An environment where no variable is set. -/
def envNone : String → Option String := fun _ => none

/-! ## Claim theorems: error handling of the fetch step (C1) -/

/-- C1: for every latitude/longitude input, if an exception is raised during
the request or response parsing of `fetch_weather_data`, the function
catches it, writes an error log entry containing the exception message, and
returns the null result `none` instead of propagating; the function returns
normally, so no exception escapes the call. -/
theorem fetch_exception_caught (latitude longitude : Rat) (e : String) :
    (fetch_weather_data latitude longitude (FetchOutcome.exn e)).1 = none ∧
    (fetch_weather_data latitude longitude (FetchOutcome.exn e)).2 =
      [LogEntry.error ("Error occurred while fetching weather data: " ++ e)] :=
  ⟨rfl, rfl⟩

/-! ## Claim theorems: store semantics (C4, C9) -/

/-- C4: storing one table and then a second table under the same name leaves
the database holding exactly the second store result for that name — a
destructive full replace, with no duplication, append, or retention of the
first call's rows. -/
theorem store_replace_semantics (db : Database) (df1 df2 : WeatherDF)
    (table_name : String) :
    (store_into_database
        (store_into_database db (some df1) table_name).1
        (some df2) table_name).1 table_name = some (toStored df2) := by
  simp [store_into_database]

/-- C9: every stored table persists the ForecastTable columns verbatim, plus
one generated integer row-index column `0, 1, ..., n-1`. -/
theorem store_persists_columns_verbatim (db : Database) (df : WeatherDF)
    (table_name : String) :
    (store_into_database db (some df) table_name).1 table_name =
      some (toStored df) ∧
    (toStored df).date = df.date ∧
    (toStored df).weather_code = df.weather_code ∧
    (toStored df).temperature_2m_max = df.temperature_2m_max ∧
    (toStored df).temperature_2m_min = df.temperature_2m_min ∧
    (toStored df).sunrise = df.sunrise ∧
    (toStored df).precipitation_sum = df.precipitation_sum ∧
    (toStored df).rain_sum = df.rain_sum ∧
    (toStored df).index = List.range df.date.length := by
  refine ⟨?_, rfl, rfl, rfl, rfl, rfl, rfl, rfl, rfl⟩
  simp [store_into_database]

/-! ## Claim theorems: the orchestrated run on fetch failure (C7) -/

/-- C7: in the orchestrated run, when the fetch step raises (and so yields
the null result), the store and notify steps are still invoked with that
null placeholder; each catches its own failure locally (the `AttributeError`
of calling a method on `None`) and only logs it, no failure state propagates
between steps, the database is untouched, and the process exit status is 0. -/
theorem main_run_fetch_failure (env : String → Option String) (net : SendOutcome)
    (receiver_email e : String) (db : Database) :
    main_run env (FetchOutcome.exn e) net receiver_email db =
      (db,
       [LogEntry.error ("Error occurred while fetching weather data: " ++ e),
        LogEntry.error ("Error occurred while storing data into database: " ++ none_to_sql_msg),
        LogEntry.error ("Error occurred while sending email: " ++ none_to_csv_msg)],
       0) :=
  rfl

/-! ## Claim theorems: notifier delivery logging (C6, C8) -/

/-- C6: with the environment variables present (so the transport outcome is
whatever the network produced), `send_email` logs success exactly when the
delivery response status code is 202; every other status code is logged as a
failure, and an exception raised during sending is caught and logged as a
failure.  The function returns normally in every case, so no exception
escapes the call. -/
theorem send_email_status_logging (env : String → Option String) (k f : String)
    (content : String) (df : WeatherDF) (receiver_email : String)
    (code : Nat) (e : String)
    (hk : env "SENDGRID_API_KEY" = some k) (hf : env "EMAIL_USER" = some f) :
    (send_email env (SendOutcome.response code) content (some df) receiver_email).2 =
      (if code = 202 then [LogEntry.info "Email sent successfully."]
       else [LogEntry.error ("Failed to send email. Status code: " ++ toString code)]) ∧
    (send_email env (SendOutcome.exn e) content (some df) receiver_email).2 =
      [LogEntry.error ("Error occurred while sending email: " ++ e)] := by
  refine ⟨?_, by simp [send_email, sendgrid_send, hk, hf]⟩
  by_cases hc : code = 202 <;> simp [send_email, sendgrid_send, hk, hf, hc]

/-- Witness for C6 at a concrete rejected status (401) and a concrete
transport exception. -/
theorem send_email_status_logging_witness :
    (send_email envW (SendOutcome.response 401) "msg" (some dfEmpty) "r@x").2 =
      (if 401 = 202 then [LogEntry.info "Email sent successfully."]
       else [LogEntry.error ("Failed to send email. Status code: " ++ toString 401)]) ∧
    (send_email envW (SendOutcome.exn "connection reset") "msg" (some dfEmpty) "r@x").2 =
      [LogEntry.error ("Error occurred while sending email: " ++ "connection reset")] :=
  send_email_status_logging envW "value" "value" "msg" dfEmpty "r@x" 401
    "connection reset" rfl rfl

/-- C8: if the SENDGRID_API_KEY or EMAIL_USER environment variable is
missing, `send_email` ends in a delivery failure that is caught and logged;
the function returns normally, so no unhandled exception escapes the call.
The delivery collaborator is modelled from the spec (`sendgrid_send`). -/
theorem send_email_missing_env_logged (env : String → Option String)
    (net : SendOutcome) (content : String) (df : WeatherDF)
    (receiver_email : String)
    (h : env "SENDGRID_API_KEY" = none ∨ env "EMAIL_USER" = none) :
    (send_email env net content (some df) receiver_email).2 =
      [LogEntry.error ("Error occurred while sending email: " ++
        "missing credential or sender address")] := by
  rcases h with h | h
  · cases hf : env "EMAIL_USER" <;> simp [send_email, sendgrid_send, h, hf]
  · cases hk : env "SENDGRID_API_KEY" <;> simp [send_email, sendgrid_send, h, hk]

/-- Witness for C8 in an environment with no variables set. -/
theorem send_email_missing_env_logged_witness :
    (send_email envNone (SendOutcome.response 202) "msg" (some dfEmpty) "r@x").2 =
      [LogEntry.error ("Error occurred while sending email: " ++
        "missing credential or sender address")] :=
  send_email_missing_env_logged envNone (SendOutcome.response 202) "msg" dfEmpty
    "r@x" (Or.inl rfl)

/-! ## Date-range lemmas -/

/-- With enough fuel, a generated point is exactly a step multiple from the
start that lies strictly below the end: the left-inclusive, right-exclusive
reading of the range. -/
theorem date_range_go_mem (step : Int) (hstep : 0 < step) (t : Int) :
    ∀ (fuel : Nat) (s e : Int), (e - s).toNat ≤ fuel →
      (t ∈ date_range_go s e step fuel ↔ ∃ i : Nat, t = s + i * step ∧ t < e) := by
  intro fuel
  induction fuel with
  | zero =>
    intro s e hf
    simp only [date_range_go, List.not_mem_nil, false_iff]
    rintro ⟨i, hti, hte⟩
    have hnn : 0 ≤ (i : Int) * step := mul_nonneg (Int.natCast_nonneg i) hstep.le
    have hes : e - s ≤ 0 := by omega
    linarith
  | succ fuel ih =>
    intro s e hf
    rw [date_range_go]
    by_cases hse : s < e
    · rw [if_pos hse]
      constructor
      · intro ht
        rcases List.mem_cons.mp ht with h | h
        · exact ⟨0, by simp [h], by omega⟩
        · rcases (ih (s + step) e (by omega)).mp h with ⟨i, hti, hte⟩
          exact ⟨i + 1, by rw [hti]; push_cast; ring, hte⟩
      · rintro ⟨i, hti, hte⟩
        cases i with
        | zero =>
          have : t = s := by simpa using hti
          simp [this]
        | succ i =>
          apply List.mem_cons_of_mem
          apply (ih (s + step) e (by omega)).mpr
          exact ⟨i, by rw [hti]; push_cast; ring, hte⟩
    · rw [if_neg hse]
      simp only [List.not_mem_nil, false_iff]
      rintro ⟨i, hti, hte⟩
      have hnn : 0 ≤ (i : Int) * step := mul_nonneg (Int.natCast_nonneg i) hstep.le
      have : e ≤ s := by omega
      linarith

/-- With enough fuel, the range up to `k` whole steps is exactly the `k`
points `s + i * step`, `i < k`. -/
theorem date_range_go_eq_map (step : Int) (hstep : 0 < step) :
    ∀ (k : Nat) (s : Int) (fuel : Nat), k ≤ fuel →
      date_range_go s (s + k * step) step fuel =
        (List.range k).map (fun i : Nat => s + (i : Int) * step) := by
  intro k
  induction k with
  | zero =>
    intro s fuel _
    cases fuel with
    | zero => simp [date_range_go]
    | succ fuel => rw [date_range_go, if_neg (by simp)]; simp
  | succ k ih =>
    intro s fuel hf
    cases fuel with
    | zero => omega
    | succ fuel =>
      have hpos : s < s + ((k + 1 : Nat) : Int) * step := by
        have h1 : (0 : Int) < ((k : Int) + 1) * step :=
          mul_pos (by positivity) hstep
        push_cast
        linarith
      have he : s + ((k + 1 : Nat) : Int) * step = (s + step) + (k : Int) * step := by
        push_cast
        ring
      rw [date_range_go, if_pos hpos, he, ih (s + step) fuel (by omega)]
      rw [List.range_succ_eq_map, List.map_cons, List.map_map]
      congr 1
      · simp
      · apply List.map_congr_left
        intro i _
        simp only [Function.comp_apply]
        push_cast
        ring

/-- Inversion of a successful `date_range` call: the step was positive and
each returned point is a step multiple from the start strictly below the
end. -/
theorem date_range_some_mem (s e step : Int) (l : List Int)
    (h : date_range s e step = some l) (t : Int) :
    t ∈ l ↔ ∃ i : Nat, t = s + i * step ∧ t < e := by
  unfold date_range at h
  by_cases hs : 0 < step
  · rw [if_pos hs] at h
    obtain rfl : date_range_go s e step (e - s).toNat = l := Option.some.inj h
    exact date_range_go_mem step hs t (e - s).toNat s e le_rfl
  · rw [if_neg hs] at h
    cases h

/-- Element access into a mapped range. -/
theorem getD_range_map (n : Nat) (f : Nat → Int) (i : Nat) (hi : i < n) :
    ((List.range n).map f).getD i 0 = f i := by
  rw [List.getD_eq_getElem?_getD, List.getElem?_map, List.getElem?_range hi]
  rfl

/-! ## Claim theorems: shape of a successful fetch (C2, C3) -/

/-- C2: for a fetch whose response honors the request (14 daily values at a
one-day interval: `respConforms`, modelled from the spec since the remote
API is external), `fetch_weather_data` succeeds and the returned table has
exactly 14 rows, its date column strictly increases by one day (86400 s) per
row with no duplicate dates, and each of the six value columns has the same
length as the date column. -/
theorem fetch_conforming_shape (latitude longitude : Rat) (r : ApiResponse)
    (h : respConforms r) :
    ∃ df : WeatherDF,
      (fetch_weather_data latitude longitude (FetchOutcome.ok r)).1 = some df ∧
      df.date.length = 14 ∧
      (∀ i : Nat, i + 1 < df.date.length →
        df.date.getD (i + 1) 0 = df.date.getD i 0 + 86400) ∧
      List.Pairwise (fun a b : Int => a < b) df.date ∧
      df.date.Nodup ∧
      df.weather_code.length = df.date.length ∧
      df.temperature_2m_max.length = df.date.length ∧
      df.temperature_2m_min.length = df.date.length ∧
      df.sunrise.length = df.date.length ∧
      df.precipitation_sum.length = df.date.length ∧
      df.rain_sum.length = df.date.length := by
  obtain ⟨hint, hend, h1, h2, h3, h4, h5, h6⟩ := h
  have hstep : (0 : Int) < 86400 := by norm_num
  have hrange : date_range r.time r.timeEnd r.interval =
      some ((List.range 14).map (fun i : Nat => r.time + (i : Int) * 86400)) := by
    rw [hint, date_range, if_pos hstep,
      show r.timeEnd = r.time + ((14 : Nat) : Int) * 86400 from by rw [hend]; norm_num]
    rw [date_range_go_eq_map 86400 hstep 14 r.time _ (by push_cast; omega)]
  have hlen : ((List.range 14).map (fun i : Nat => r.time + (i : Int) * 86400)).length = 14 := by
    simp
  have hpw : List.Pairwise (fun a b : Int => a < b)
      ((List.range 14).map (fun i : Nat => r.time + (i : Int) * 86400)) := by
    refine (List.pairwise_lt_range 14).map _ ?_
    intro a b hab
    have hc : (a : Int) < (b : Int) := by exact_mod_cast hab
    have := mul_lt_mul_of_pos_right hc hstep
    linarith
  simp only [fetch_weather_data]
  split
  next heq => rw [heq] at hrange; cases hrange
  next dates heq =>
    rw [heq] at hrange
    obtain rfl : dates = (List.range 14).map (fun i : Nat => r.time + (i : Int) * 86400) :=
      Option.some.inj hrange
    split
    next hcond =>
      refine ⟨_, rfl, hlen, ?_, hpw, hpw.imp fun hab => ne_of_lt hab,
        by simp [h1], by simp [h2], by simp [h3], by simp [h4], by simp [h5], by simp [h6]⟩
      intro i hi
      rw [hlen] at hi
      rw [getD_range_map 14 _ (i + 1) hi, getD_range_map 14 _ i (by omega)]
      push_cast
      ring
    next hncond =>
      exact absurd ⟨h1.trans hlen.symm, h2.trans hlen.symm, h3.trans hlen.symm,
        h4.trans hlen.symm, h5.trans hlen.symm, h6.trans hlen.symm⟩ hncond

/-- Witness for C2 at the concrete conforming response `respW`. -/
theorem fetch_conforming_shape_witness :
    ∃ df : WeatherDF,
      (fetch_weather_data 0 0 (FetchOutcome.ok respW)).1 = some df ∧
      df.date.length = 14 ∧
      (∀ i : Nat, i + 1 < df.date.length →
        df.date.getD (i + 1) 0 = df.date.getD i 0 + 86400) ∧
      List.Pairwise (fun a b : Int => a < b) df.date ∧
      df.date.Nodup ∧
      df.weather_code.length = df.date.length ∧
      df.temperature_2m_max.length = df.date.length ∧
      df.temperature_2m_min.length = df.date.length ∧
      df.sunrise.length = df.date.length ∧
      df.precipitation_sum.length = df.date.length ∧
      df.rain_sum.length = df.date.length :=
  fetch_conforming_shape 0 0 respW (by constructor <;> decide)

/-- C3: for every parsed response from which `fetch_weather_data` builds a
table, the table's date column is exactly what `date_range` yields from the
response's reported start, end and interval — the left-inclusive,
right-exclusive stepped range, as the membership characterization states —
and it aligns 1:1 by position with each per-variable array: the six value
columns are the response arrays verbatim and have the date column's
length. -/
theorem fetch_builds_date_range (latitude longitude : Rat) (r : ApiResponse)
    (df : WeatherDF)
    (h : (fetch_weather_data latitude longitude (FetchOutcome.ok r)).1 = some df) :
    date_range r.time r.timeEnd r.interval = some df.date ∧
    (∀ t : Int, t ∈ df.date ↔ ∃ i : Nat, t = r.time + i * r.interval ∧ t < r.timeEnd) ∧
    df.weather_code = r.weather_code ∧
    df.temperature_2m_max = r.temperature_2m_max ∧
    df.temperature_2m_min = r.temperature_2m_min ∧
    df.sunrise = r.sunrise ∧
    df.precipitation_sum = r.precipitation_sum ∧
    df.rain_sum = r.rain_sum ∧
    df.weather_code.length = df.date.length ∧
    df.temperature_2m_max.length = df.date.length ∧
    df.temperature_2m_min.length = df.date.length ∧
    df.sunrise.length = df.date.length ∧
    df.precipitation_sum.length = df.date.length ∧
    df.rain_sum.length = df.date.length := by
  simp only [fetch_weather_data] at h
  split at h
  next heq => cases h
  next dates heq =>
    split at h
    next hcond =>
      obtain rfl : WeatherDF.mk dates r.weather_code r.temperature_2m_max
          r.temperature_2m_min r.sunrise r.precipitation_sum r.rain_sum
          hcond.1 hcond.2.1 hcond.2.2.1 hcond.2.2.2.1 hcond.2.2.2.2.1
          hcond.2.2.2.2.2 = df := Option.some.inj h
      exact ⟨heq, date_range_some_mem _ _ _ _ heq, rfl, rfl, rfl, rfl, rfl, rfl,
        hcond.1, hcond.2.1, hcond.2.2.1, hcond.2.2.2.1, hcond.2.2.2.2.1,
        hcond.2.2.2.2.2⟩
    next => cases h

/-- Witness for C3 at the concrete response `respW`, whose fetch builds the
concrete frame `dfW`. -/
theorem fetch_builds_date_range_witness :
    date_range respW.time respW.timeEnd respW.interval = some dfW.date ∧
    (∀ t : Int, t ∈ dfW.date ↔
      ∃ i : Nat, t = respW.time + i * respW.interval ∧ t < respW.timeEnd) ∧
    dfW.weather_code = respW.weather_code ∧
    dfW.temperature_2m_max = respW.temperature_2m_max ∧
    dfW.temperature_2m_min = respW.temperature_2m_min ∧
    dfW.sunrise = respW.sunrise ∧
    dfW.precipitation_sum = respW.precipitation_sum ∧
    dfW.rain_sum = respW.rain_sum ∧
    dfW.weather_code.length = dfW.date.length ∧
    dfW.temperature_2m_max.length = dfW.date.length ∧
    dfW.temperature_2m_min.length = dfW.date.length ∧
    dfW.sunrise.length = dfW.date.length ∧
    dfW.precipitation_sum.length = dfW.date.length ∧
    dfW.rain_sum.length = dfW.date.length :=
  fetch_builds_date_range 0 0 respW dfW rfl

/-! ## Base64 and CSV lemmas -/

/-- Decoding the alphabet character of a six-bit value recovers the value. -/
theorem charSixBit_sixBitChar : ∀ n : Nat, n < 64 → charSixBit (sixBitChar n) = some n := by
  decide

/-- No alphabet character is the padding character. -/
theorem sixBitChar_ne_pad : ∀ n : Nat, n < 64 → sixBitChar n ≠ Char.ofNat 61 := by
  decide

/-- Base64 decoding inverts base64 encoding on byte lists. -/
theorem b64_roundtrip (bs : List Nat) (h : ∀ b ∈ bs, b < 256) :
    b64decodeChars (b64encodeChars bs) = some bs := by
  induction bs using b64encodeChars.induct with
  | case1 => rfl
  | case2 a =>
    have ha : a < 256 := h a (by simp)
    simp only [b64encodeChars, b64decodeChars]
    rw [charSixBit_sixBitChar _ (by omega), charSixBit_sixBitChar _ (by omega)]
    simp only []
    rw [if_pos (by simp)]
    simp only [Option.some.injEq, List.cons.injEq, and_true]
    omega
  | case3 a b =>
    have ha : a < 256 := h a (by simp)
    have hb : b < 256 := h b (by simp)
    simp only [b64encodeChars, b64decodeChars]
    rw [charSixBit_sixBitChar _ (by omega), charSixBit_sixBitChar _ (by omega)]
    simp only []
    rw [if_neg (fun hcon => sixBitChar_ne_pad _ (by omega) hcon.1)]
    rw [charSixBit_sixBitChar _ (by omega)]
    simp only []
    rw [if_pos (by simp)]
    simp only [Option.some.injEq, List.cons.injEq, and_true]
    constructor <;> omega
  | case4 a b c rest ih =>
    have ha : a < 256 := h a (by simp)
    have hb : b < 256 := h b (by simp)
    have hc : c < 256 := h c (by simp)
    have hrest : ∀ x ∈ rest, x < 256 := fun x hx => h x (by simp [hx])
    simp only [b64encodeChars, b64decodeChars]
    rw [charSixBit_sixBitChar _ (by omega), charSixBit_sixBitChar _ (by omega)]
    simp only []
    rw [if_neg (fun hcon => sixBitChar_ne_pad _ (by omega) hcon.1)]
    rw [charSixBit_sixBitChar _ (by omega)]
    simp only []
    rw [if_neg (fun hcon => sixBitChar_ne_pad _ (by omega) hcon.1)]
    rw [charSixBit_sixBitChar _ (by omega), ih hrest]
    simp only [Option.some.injEq, List.cons.injEq]
    exact ⟨by omega, by omega, by omega, trivial⟩

/-- Decimal digit bytes are digit characters. -/
theorem natDigits_mem (n : Nat) : ∀ b ∈ natDigits n, 48 ≤ b ∧ b < 58 := by
  induction n using Nat.strong_induction_on with
  | _ n ih =>
    rw [natDigits]
    split
    next hlt =>
      intro b hb
      simp only [List.mem_singleton] at hb
      omega
    next hge =>
      intro b hb
      rcases List.mem_append.mp hb with h2 | h2
      · exact ih (n / 10) (Nat.div_lt_self (by omega) (by omega)) b h2
      · simp only [List.mem_singleton] at h2
        omega

/-- Integer cell bytes are a minus sign or digit characters. -/
theorem intBytes_mem (i : Int) : ∀ b ∈ intBytes i, b = 45 ∨ (48 ≤ b ∧ b < 58) := by
  cases i with
  | ofNat n => exact fun b hb => Or.inr (natDigits_mem n b hb)
  | negSucc m =>
    intro b hb
    rcases List.mem_cons.mp hb with h | h
    · exact Or.inl h
    · exact Or.inr (natDigits_mem (m + 1) b h)

/-- A byte of a comma-join is a comma or a byte of some chunk. -/
theorem joinCommaBytes_mem (xs : List (List Nat)) (b : Nat)
    (h : b ∈ joinCommaBytes xs) : b = 44 ∨ ∃ x ∈ xs, b ∈ x := by
  induction xs with
  | nil => simp [joinCommaBytes] at h
  | cons x xs ih =>
    cases xs with
    | nil =>
      rw [joinCommaBytes] at h
      exact Or.inr ⟨x, by simp, h⟩
    | cons y ys =>
      rw [joinCommaBytes] at h
      rcases List.mem_append.mp h with h | h
      · exact Or.inr ⟨x, by simp, h⟩
      · rcases List.mem_cons.mp h with h | h
        · exact Or.inl h
        · rcases ih h with h44 | ⟨u, hu, hbu⟩
          · exact Or.inl h44
          · exact Or.inr ⟨u, by simp [List.mem_cons.mp hu], hbu⟩

/-- A byte of a CSV data line is the newline, a comma, a minus sign or a
digit. -/
theorem csvRowBytes_mem (r : Int × Int × Int × Int × Int × Int × Int) (b : Nat)
    (hb : b ∈ csvRowBytes r) : b = 10 ∨ b = 44 ∨ b = 45 ∨ (48 ≤ b ∧ b < 58) := by
  obtain ⟨a, b2, c, d, e, f, g⟩ := r
  simp only [csvRowBytes] at hb
  rcases List.mem_append.mp hb with h | h
  · rcases joinCommaBytes_mem _ _ h with h | ⟨x, hx, hbx⟩
    · exact Or.inr (Or.inl h)
    · simp only [List.mem_cons, List.not_mem_nil, or_false] at hx
      rcases hx with rfl | rfl | rfl | rfl | rfl | rfl | rfl <;>
        rcases intBytes_mem _ _ hbx with h | h <;> tauto
  · simp only [List.mem_singleton] at h
    exact Or.inl h

/-- An integer cell rendering contains no newline byte. -/
theorem count10_intBytes (i : Int) : (intBytes i).count 10 = 0 :=
  List.count_eq_zero.mpr fun hmem => by
    rcases intBytes_mem i 10 hmem with h | h <;> omega

/-- A comma-join of newline-free chunks is newline-free. -/
theorem count10_joinComma (xs : List (List Nat)) (hx : ∀ x ∈ xs, x.count 10 = 0) :
    (joinCommaBytes xs).count 10 = 0 := by
  refine List.count_eq_zero.mpr fun hmem => ?_
  rcases joinCommaBytes_mem xs 10 hmem with h | ⟨x, hxx, hbx⟩
  · omega
  · exact absurd hbx (List.count_eq_zero.mp (hx x hxx))

/-- Each CSV data line contains exactly one newline byte. -/
theorem count10_csvRowBytes (r : Int × Int × Int × Int × Int × Int × Int) :
    (csvRowBytes r).count 10 = 1 := by
  obtain ⟨a, b, c, d, e, f, g⟩ := r
  simp only [csvRowBytes]
  rw [List.count_append]
  rw [count10_joinComma _ (by
    intro x hx
    simp only [List.mem_cons, List.not_mem_nil, or_false] at hx
    rcases hx with rfl | rfl | rfl | rfl | rfl | rfl | rfl <;> exact count10_intBytes _)]
  rfl

/-- The data lines contain one newline byte per row. -/
theorem count10_rows (l : List (Int × Int × Int × Int × Int × Int × Int)) :
    ((l.map csvRowBytes).flatten).count 10 = l.length := by
  induction l with
  | nil => rfl
  | cons r l ih =>
    simp only [List.map_cons, List.flatten_cons, List.count_append, ih,
      count10_csvRowBytes, List.length_cons]
    omega

/-- A frame has one CSV row per date entry. -/
theorem rows_length (df : WeatherDF) : df.rows.length = df.date.length := by
  simp only [WeatherDF.rows, List.length_zip]
  rw [df.hwc, df.htmax, df.htmin, df.hsun, df.hpre, df.hrain]
  omega

/-- The serialized CSV has one newline per row plus one for the header
line: its line count is the row count plus one. -/
theorem to_csv_count10 (df : WeatherDF) :
    (to_csv_bytes df).count 10 = df.date.length + 1 := by
  unfold to_csv_bytes
  rw [List.count_append, List.count_cons, count10_rows, rows_length]
  have h0 : headerBytes.count 10 = 0 := by decide
  rw [h0]
  simp

/-- Every CSV byte is a valid (single-octet) byte. -/
theorem to_csv_bytes_lt (df : WeatherDF) : ∀ b ∈ to_csv_bytes df, b < 256 := by
  intro b hb
  unfold to_csv_bytes at hb
  rcases List.mem_append.mp hb with h | h
  · have hh : ∀ x ∈ headerBytes, x < 256 := by decide
    exact hh b h
  · rcases List.mem_cons.mp h with h | h
    · omega
    · rcases List.mem_flatten.mp h with ⟨row, hrow, hbrow⟩
      rcases List.mem_map.mp hrow with ⟨r, hr, rfl⟩
      rcases csvRowBytes_mem r b hbrow with h | h | h | h <;> omega

/-- Taking up to the first newline of the CSV yields the newline-free
prefix. -/
theorem takeWhile_until_newline (l r : List Nat) (hl : ∀ b ∈ l, b ≠ 10) :
    (l ++ 10 :: r).takeWhile (fun b => b != 10) = l := by
  induction l with
  | nil => simp
  | cons a l ih =>
    rw [List.cons_append, List.takeWhile_cons]
    have ha : a ≠ 10 := hl a (by simp)
    rw [if_pos (by simpa using ha)]
    rw [ih fun b hb => hl b (by simp [hb])]

/-! ## Claim theorems: the email attachment (C5, C10) -/

/-- C5: for every input table, `send_email` builds and sends a message whose
attachment is named weather_report.csv with MIME type text/csv, and
base64-decoding the attachment content yields exactly the comma-separated
serialization of the table, whose number of (newline-terminated) lines is
the table's row count plus the one header line. -/
theorem send_email_attachment_roundtrip (env : String → Option String)
    (net : SendOutcome) (content : String) (df : WeatherDF)
    (receiver_email : String) :
    ∃ (m : Mail) (att : Attachment),
      (send_email env net content (some df) receiver_email).1 = some m ∧
      m.attachment = some att ∧
      att.file_name = "weather_report.csv" ∧
      att.file_type = "text/csv" ∧
      b64decode att.file_content = some (to_csv_bytes df) ∧
      (to_csv_bytes df).count 10 = df.date.length + 1 := by
  have hdec : b64decode (b64encode (to_csv_bytes df)) = some (to_csv_bytes df) := by
    unfold b64decode b64encode
    exact b64_roundtrip _ (to_csv_bytes_lt df)
  refine ⟨{ from_email := env "EMAIL_USER", to_emails := [receiver_email],
            subject := "Weather Report", html_content := html_template content,
            attachment := some { file_content := b64encode (to_csv_bytes df),
                                 file_name := "weather_report.csv",
                                 file_type := "text/csv",
                                 disposition := "attachment",
                                 content_id := "dataframe" } },
          { file_content := b64encode (to_csv_bytes df),
            file_name := "weather_report.csv",
            file_type := "text/csv",
            disposition := "attachment",
            content_id := "dataframe" },
          ?_, rfl, rfl, rfl, hdec, to_csv_count10 df⟩
  simp only [send_email]
  split
  · split <;> rfl
  · rfl

/-- C10: the CSV attachment of `send_email` excludes the row-index column:
its header line is exactly the seven ForecastTable column names joined by
commas (`to_csv` is called with `index = False`), while the stored database
table's columns are the index column followed by those same seven columns —
the two column sets differ exactly by the generated row-index column. -/
theorem email_csv_excludes_row_index (env : String → Option String)
    (net : SendOutcome) (content : String) (df : WeatherDF)
    (receiver_email : String) :
    ∃ (m : Mail) (att : Attachment),
      (send_email env net content (some df) receiver_email).1 = some m ∧
      m.attachment = some att ∧
      b64decode att.file_content = some (to_csv_bytes df) ∧
      (to_csv_bytes df).takeWhile (fun b => b != 10) =
        joinCommaBytes (forecast_column_names.map strBytes) ∧
      forecast_column_names = ["date", "weather_code", "temperature_2m_max",
        "temperature_2m_min", "sunrise", "precipitation_sum", "rain_sum"] ∧
      stored_column_names = "index" :: forecast_column_names ∧
      "index" ∉ forecast_column_names ∧
      (toStored df).index = List.range df.date.length := by
  have hdec : b64decode (b64encode (to_csv_bytes df)) = some (to_csv_bytes df) := by
    unfold b64decode b64encode
    exact b64_roundtrip _ (to_csv_bytes_lt df)
  have htake : (to_csv_bytes df).takeWhile (fun b => b != 10) = headerBytes := by
    unfold to_csv_bytes
    exact takeWhile_until_newline _ _ (by decide)
  refine ⟨{ from_email := env "EMAIL_USER", to_emails := [receiver_email],
            subject := "Weather Report", html_content := html_template content,
            attachment := some { file_content := b64encode (to_csv_bytes df),
                                 file_name := "weather_report.csv",
                                 file_type := "text/csv",
                                 disposition := "attachment",
                                 content_id := "dataframe" } },
          { file_content := b64encode (to_csv_bytes df),
            file_name := "weather_report.csv",
            file_type := "text/csv",
            disposition := "attachment",
            content_id := "dataframe" },
          ?_, rfl, hdec, htake, rfl, rfl, by decide, rfl⟩
  simp only [send_email]
  split
  · split <;> rfl
  · rfl

end App
